import Mathlib

/-!
# Verification of the shadowserver shadow-dispatch engine

The repository ships a single visible source file (src/sample.py) that
constructs a ShadowServer from one positional target-URL string and drives
its start_server coroutine with an asyncio event loop.  The engine itself
(shadowserver.main) is not part of the visible sources, so its data model
and operations are modelled here from the specification, faithful to the
words of the spec; the sample file is embedded directly.
-/

namespace Shadowserver

/-- Modelled from the spec: the immutable description of an inbound call
(section 3, Request): method, path, headers as an ordered list of pairs with
duplicates preserved in order, optional byte-sequence body, and the arrival
timestamp.  The response sink is external and carries no data relevant here. -/
structure Request where
  method : String
  path : String
  headers : List (String × String)
  body : Option (List Nat)
  arrival : Nat
deriving DecidableEq, Repr

/-- Modelled from the spec: an origin response passed through unmodified
(status, headers, body). -/
structure Response where
  status : Nat
  headers : List (String × String)
  body : List Nat
deriving DecidableEq, Repr

/-- Modelled from the spec: a cloned view of a Request plus target URL,
attempt counter, creation timestamp and deadline (section 3, ShadowTask). -/
structure ShadowTask where
  method : String
  path : String
  headers : List (String × String)
  body : Option (List Nat)
  target : String
  attempts : Nat
  createdAt : Nat
  deadline : Nat
deriving DecidableEq, Repr

/-- Modelled from the spec: the configured overflow policy of the Shadow
Queue, reject-new versus drop-oldest. -/
inductive OverflowPolicy where
  | rejectNew
  | dropOldest
deriving DecidableEq, Repr

/-- Modelled from the spec: QueueState holds capacity, the FIFO contents,
the overflow policy, the count of tasks discarded under reject-new, the
tasks evicted under drop-oldest, and whether the queue has been closed for
shutdown (section 3 QueueState, section 4.3, section 4.5). -/
structure QueueState where
  capacity : Nat
  items : List ShadowTask
  policy : OverflowPolicy
  dropped : Nat
  evicted : List ShadowTask
  closed : Bool
deriving DecidableEq, Repr

/-- A fresh open queue of the given capacity and policy. -/
def QueueState.mk0 (cap : Nat) (pol : OverflowPolicy) : QueueState :=
  { capacity := cap, items := [], policy := pol, dropped := 0,
    evicted := [], closed := false }

/-- Modelled from the spec: enqueue into the bounded FIFO (section 4.3).
A closed queue fails fast (section 4.5).  When full, reject-new returns
false immediately and the task is discarded and counted; drop-oldest
evicts the head before inserting.  Returns the new state and whether the
task was inserted. -/
def enqueue (q : QueueState) (t : ShadowTask) : QueueState × Bool :=
  if q.closed then
    ({ q with dropped := q.dropped + 1 }, false)
  else if q.items.length < q.capacity then
    ({ q with items := q.items ++ [t] }, true)
  else
    match q.policy with
    | .rejectNew => ({ q with dropped := q.dropped + 1 }, false)
    | .dropOldest =>
        ({ q with items := q.items.tail ++ [t],
                  evicted := q.evicted ++ q.items.take 1 }, true)

/-- Result of a dequeue: an item with the remaining queue, a closed signal
once the queue is closed and empty, or a suspension while open and empty. -/
inductive DequeueResult where
  | item (t : ShadowTask) (rest : QueueState)
  | closedSignal
  | wait
deriving DecidableEq, Repr

/-- Modelled from the spec: dequeue pops the FIFO head; it suspends the
calling worker while the queue is open and empty, and returns a closed
signal instead of a task once the queue is closed (section 4.3). -/
def dequeue (q : QueueState) : DequeueResult :=
  match q.items with
  | t :: rest => .item t { q with items := rest }
  | [] => if q.closed then .closedSignal else .wait

/-- Fold enqueue over a list of tasks, counting how many were inserted. -/
def enqueueAll (q : QueueState) : List ShadowTask → QueueState × Nat
  | [] => (q, 0)
  | t :: ts =>
      let r := enqueue q t
      let rest := enqueueAll r.1 ts
      (rest.1, (if r.2 then 1 else 0) + rest.2)

/-- A sample task used to instantiate universally quantified statements. -/
def sampleTask1 : ShadowTask :=
  { method := "GET", path := "/ping", headers := [], body := none,
    target := "https://www.google.com/", attempts := 0,
    createdAt := 0, deadline := 30 }

/-- A second sample task, distinct from the first. -/
def sampleTask2 : ShadowTask :=
  { sampleTask1 with path := "/pong" }

/-- Modelled from the spec: how the origin behaves for a given request --
either it responds, or the primary path hits a connection failure, a
timeout, or a malformed upstream response (section 4.2). -/
inductive UpstreamBehavior where
  | respond (r : Response)
  | connectionFailure
  | timeout
  | malformed
deriving DecidableEq, Repr

/-- Modelled from the spec: the error taxonomy of the primary path
(section 7, UpstreamError). -/
inductive UpstreamError where
  | connectionFailure
  | timeout
  | malformedResponse
deriving DecidableEq, Repr

/-- Modelled from the spec: the Primary Forwarder transmits the request to
the origin and returns the response unmodified; it fails with UpstreamError
on connection failure, timeout, or malformed upstream response
(section 4.2). -/
def forward (origin : Request → UpstreamBehavior) (req : Request) :
    Except UpstreamError Response :=
  match origin req with
  | .respond r => .ok r
  | .connectionFailure => .error .connectionFailure
  | .timeout => .error .timeout
  | .malformed => .error .malformedResponse

/-- Modelled from the spec: the gateway-style error response the
coordinator returns to the client when the Primary Forwarder fails
(section 4.2). -/
def gatewayError (e : UpstreamError) : Response :=
  { status := 502,
    headers := [("content-type", "text/plain")],
    body := match e with
            | .connectionFailure => [0]
            | .timeout => [1]
            | .malformedResponse => [2] }

/-- The response the caller receives for a request: the forwarded origin
response, or the gateway-style translation of the UpstreamError. -/
def handleResponse (origin : Request → UpstreamBehavior) (req : Request) :
    Response :=
  match forward origin req with
  | .ok r => r
  | .error e => gatewayError e

/-- Modelled from the spec: cloning a Request into a ShadowTask at
admission time: same method, path, headers and body, plus the shadow
target URL, a zero attempt counter, creation timestamp and deadline
(section 3, ShadowTask). -/
def clone (target : String) (timeout : Nat) (req : Request) : ShadowTask :=
  { method := req.method, path := req.path, headers := req.headers,
    body := req.body, target := target, attempts := 0,
    createdAt := req.arrival, deadline := req.arrival + timeout }

/-- Observable actions of the Dispatch Coordinator while handling one
accepted request: the primary-path forward, and the shadow enqueue
attempt. -/
inductive Event where
  | primaryForward (req : Request)
  | shadowEnqueueAttempt (t : ShadowTask)
deriving DecidableEq, Repr

/-- Whether an event is the primary-path forward. -/
def Event.isPrimary : Event → Bool
  | .primaryForward _ => true
  | .shadowEnqueueAttempt _ => false

/-- Whether an event is the shadow enqueue attempt. -/
def Event.isEnqueueAttempt : Event → Bool
  | .primaryForward _ => false
  | .shadowEnqueueAttempt _ => true

/-- The outcome of one call to the Dispatch Coordinator: the response to
the caller, the queue after the shadow enqueue attempt, and the events
that occurred. -/
structure HandleResult where
  response : Response
  queue : QueueState
  events : List Event
deriving DecidableEq, Repr

/-- Modelled from the spec: the Dispatch Coordinator contract
handle(request) -> response (section 4.1): it triggers the Primary
Forwarder once to produce the response, and independently clones the
request into a ShadowTask and attempts to enqueue it once; an enqueue
failure is recorded and never raised to the caller. -/
def handle (origin : Request → UpstreamBehavior) (target : String)
    (timeout : Nat) (q : QueueState) (req : Request) : HandleResult :=
  let t := clone target timeout req
  let r := enqueue q t
  { response := handleResponse origin req,
    queue := r.1,
    events := [Event.primaryForward req, Event.shadowEnqueueAttempt t] }

/-- Modelled from the spec: the result of one shadow delivery attempt on
the network (section 4.4). -/
inductive AttemptResult where
  | delivered
  | failed
  | timedOut
deriving DecidableEq, Repr

/-- Modelled from the spec: the shadow destination as the worker pool sees
it: the result of the nth delivery attempt for a task (section 4.4).
Varying this environment models the shadow target being up, down, or
failing. -/
structure ShadowEnv where
  attempt : ShadowTask → Nat → AttemptResult

/-- Modelled from the spec: the per-task retry loop of a worker
(section 4.4): attempt delivery, stop on success, retry on failure up to
the remaining fuel, and return the final result with the total number of
attempts made. -/
def tryDeliver (env : ShadowEnv) (t : ShadowTask) : Nat → Nat → AttemptResult × Nat
  | made, 0 => (.failed, made)
  | made, n + 1 =>
      match env.attempt t made with
      | .delivered => (.delivered, made + 1)
      | r => if n = 0 then (r, made + 1) else tryDeliver env t (made + 1) n

/-- A worker delivering one task: up to maxAttempts tries starting from a
zero attempt counter. -/
def workerDeliver (env : ShadowEnv) (t : ShadowTask) (maxAttempts : Nat) :
    AttemptResult × Nat :=
  tryDeliver env t 0 maxAttempts

/-- Modelled from the spec: the default of the maxAttempts configuration
option is 1, meaning no retry (section 4.4). -/
def defaultMaxAttempts : Nat := 1

/-- Modelled from the spec: the DispatchOutcome classification emitted to
the observability collaborator (section 3, section 6). -/
inductive DispatchOutcome where
  | delivered
  | failed
  | droppedOnFull
  | timedOut
  | cancelled
deriving DecidableEq, Repr

/-- Classify the final result of a delivery loop as a DispatchOutcome. -/
def classify (r : AttemptResult × Nat) : DispatchOutcome :=
  match r.1 with
  | .delivered => .delivered
  | .failed => .failed
  | .timedOut => .timedOut

/-- The coordinator handling a batch of accepted requests in order,
threading the queue and collecting the responses returned to callers. -/
def coordinatorRun (origin : Request → UpstreamBehavior) (target : String)
    (timeout : Nat) : QueueState → List Request → QueueState × List Response
  | q, [] => (q, [])
  | q, r :: rs =>
      let h := handle origin target timeout q r
      let rest := coordinatorRun origin target timeout h.queue rs
      (rest.1, h.response :: rest.2)

/-- The whole engine on a batch: the coordinator accepts every request,
then the worker pool drains the queue and delivers each clone through the
shadow environment.  Returns the responses seen by callers and the
dispatch outcomes seen by observability. -/
def engineRun (origin : Request → UpstreamBehavior) (env : ShadowEnv)
    (target : String) (timeout maxAttempts : Nat) (q : QueueState)
    (reqs : List Request) : List Response × List DispatchOutcome :=
  let c := coordinatorRun origin target timeout q reqs
  (c.2, c.1.items.map fun t => classify (workerDeliver env t maxAttempts))

/-- Modelled from the spec: a worker slot of the fixed-size pool is either
idle or busy delivering exactly one task it owns (section 3 ownership,
section 4.4). -/
inductive WorkerStatus where
  | idle
  | busy (t : ShadowTask)
deriving DecidableEq, Repr

/-- Whether a worker slot currently has a delivery in flight. -/
def WorkerStatus.isBusy : WorkerStatus → Bool
  | .idle => false
  | .busy _ => true

/-- The number of shadow deliveries in flight: busy worker slots. -/
def inFlight (ws : List WorkerStatus) : Nat :=
  ws.countP WorkerStatus.isBusy

/-- The running engine state: the shadow queue, the worker pool slots, the
responses already returned to callers, and the outcomes emitted to
observability. -/
structure SysState where
  queue : QueueState
  workers : List WorkerStatus
  responses : List Response
  outcomes : List DispatchOutcome
deriving DecidableEq, Repr

/-- Successor state when the coordinator accepts one request. -/
def acceptState (origin : Request → UpstreamBehavior) (target : String)
    (timeout : Nat) (s : SysState) (req : Request) : SysState :=
  let h := handle origin target timeout s.queue req
  { s with queue := h.queue, responses := s.responses ++ [h.response] }

/-- Successor state when idle worker i picks up a task from the queue. -/
def pickupState (s : SysState) (i : Nat) (t : ShadowTask)
    (q : QueueState) : SysState :=
  { s with queue := q, workers := s.workers.set i (.busy t) }

/-- Successor state when busy worker i finishes its delivery loop for task
t: the slot goes idle and the classified outcome is emitted. -/
def finishState (env : ShadowEnv) (maxAttempts : Nat) (s : SysState)
    (i : Nat) (t : ShadowTask) : SysState :=
  { s with workers := s.workers.set i .idle,
           outcomes := s.outcomes ++ [classify (workerDeliver env t maxAttempts)] }

/-- Modelled from the spec: the small-step behaviour of the engine under
the cooperative scheduler (section 5): the coordinator accepts a request,
an idle worker dequeues a task, or a busy worker completes its delivery
attempts and emits the outcome. -/
inductive SysStep (origin : Request → UpstreamBehavior) (env : ShadowEnv)
    (target : String) (timeout maxAttempts : Nat) : SysState → SysState → Prop
  | accept (s : SysState) (req : Request) :
      SysStep origin env target timeout maxAttempts s
        (acceptState origin target timeout s req)
  | pickup (s : SysState) (i : Nat) (t : ShadowTask) (q : QueueState)
      (hw : s.workers[i]? = some .idle)
      (hq : dequeue s.queue = .item t q) :
      SysStep origin env target timeout maxAttempts s (pickupState s i t q)
  | finish (s : SysState) (i : Nat) (t : ShadowTask)
      (hw : s.workers[i]? = some (.busy t)) :
      SysStep origin env target timeout maxAttempts s
        (finishState env maxAttempts s i t)

/-- Modelled from the spec: the Lifecycle Controller states (section 4.5). -/
inductive LifecycleState where
  | stopped
  | starting
  | running
  | draining
deriving DecidableEq, Repr

/-- Modelled from the spec: the Lifecycle Controller owns the current
phase, the shadow queue, and the worker pool it spawns (section 4.5). -/
structure Controller where
  phase : LifecycleState
  queue : QueueState
  workers : List WorkerStatus
deriving DecidableEq, Repr

/-- Modelled from the spec: the transitions of the Lifecycle Controller
(section 4.5).  start moves Stopped to Starting and spawns the W workers;
the pool coming up moves Starting to Running; stop moves Running to
Draining and closes the Shadow Queue so enqueue calls fail fast; once
in-flight attempts have finished within the grace period or been forcibly
cancelled, Draining moves to Stopped. -/
inductive LifecycleStep (W : Nat) : Controller → Controller → Prop
  | start (c : Controller) (h : c.phase = .stopped) :
      LifecycleStep W c
        { c with phase := .starting, workers := List.replicate W .idle }
  | run (c : Controller) (h : c.phase = .starting) :
      LifecycleStep W c { c with phase := .running }
  | stop (c : Controller) (h : c.phase = .running) :
      LifecycleStep W c
        { c with phase := .draining, queue := { c.queue with closed := true } }
  | finishDrain (c : Controller) (h : c.phase = .draining) :
      LifecycleStep W c { c with phase := .stopped, workers := [] }

/-- One operation against the Shadow Queue: a producer enqueue or a
consumer dequeue. -/
inductive QueueOp where
  | enq (t : ShadowTask)
  | deq
deriving DecidableEq, Repr

/-- A queue together with the log of tasks accepted by enqueue and tasks
handed out by dequeue, for stating conservation of items. -/
structure RunLog where
  queue : QueueState
  accepted : List ShadowTask
  dequeued : List ShadowTask
deriving DecidableEq, Repr

/-- Apply one queue operation, logging accepted and dequeued tasks. -/
def RunLog.applyOp (s : RunLog) : QueueOp → RunLog
  | .enq t =>
      let r := enqueue s.queue t
      { s with queue := r.1,
               accepted := if r.2 then s.accepted ++ [t] else s.accepted }
  | .deq =>
      match dequeue s.queue with
      | .item t q => { s with queue := q, dequeued := s.dequeued ++ [t] }
      | _ => s

/-- Apply a sequence of queue operations. -/
def RunLog.runOps (s : RunLog) : List QueueOp → RunLog
  | [] => s
  | op :: ops => (s.applyOp op).runOps ops

/-- A run log over a fresh queue. -/
def initLog (cap : Nat) (pol : OverflowPolicy) : RunLog :=
  { queue := QueueState.mk0 cap pol, accepted := [], dequeued := [] }

/-- A cooperative computation: either an immediate value, or a suspended
continuation that an event loop must resume.  This models a Python
coroutine object, which does nothing until driven. -/
inductive Async (α : Type) : Type where
  | pure (a : α)
  | suspend (k : Unit → Async α)

/-- Driving a cooperative computation to completion, as the asyncio event
loop does. -/
def Async.run {α : Type} : Async α → α
  | .pure a => a
  | .suspend k => Async.run (k ())

/-- Modelled from the spec: the ShadowServer class of shadowserver.main is
not among the visible sources; per the design notes, it carries
constructor-time target configuration, ShadowServer(url), a single
positional URL string and nothing else. -/
structure ShadowServer where
  target_url : String
deriving DecidableEq, Repr

/-- Constructing a ShadowServer from its single positional argument. -/
def ShadowServer.ofUrl (url : String) : ShadowServer :=
  { target_url := url }

/-- Modelled from the spec: start_server is a coroutine; calling it yields
a suspended computation that only runs when an event loop drives it. -/
def ShadowServer.start_server (_s : ShadowServer) : Async Unit :=
  .suspend fun _ => .pure ()

/-- The server object built in src/sample.py line 5:
server = ShadowServer("https://www.google.com/"). -/
def server : ShadowServer :=
  ShadowServer.ofUrl "https://www.google.com/"

/-- The entry point of src/sample.py line 8:
asyncio.run(server.start_server()). -/
def sampleMain : Unit :=
  (server.start_server).run

/-- A sample request used to instantiate universally quantified
statements: GET /ping from the testable-properties scenario. -/
def sampleRequest : Request :=
  { method := "GET", path := "/ping",
    headers := [("Host", "example.org"), ("X-Trace", "a"), ("x-trace", "b")],
    body := none, arrival := 0 }

/-- A sample origin response: status 200 with body ok. -/
def sampleResponse : Response :=
  { status := 200, headers := [("content-type", "text/plain")],
    body := [111, 107] }

/-- A sample origin that always responds with sampleResponse. -/
def sampleOrigin : Request → UpstreamBehavior :=
  fun _ => .respond sampleResponse

/-- A shadow environment in which every delivery attempt fails: the shadow
target is down. -/
def envDown : ShadowEnv :=
  { attempt := fun _ _ => .failed }

/-- A shadow environment in which every delivery attempt succeeds. -/
def envUp : ShadowEnv :=
  { attempt := fun _ _ => .delivered }

lemma coordinatorRun_responses (origin : Request → UpstreamBehavior)
    (target : String) (timeout : Nat) (q : QueueState) (reqs : List Request) :
    (coordinatorRun origin target timeout q reqs).2
      = reqs.map (handleResponse origin) := by
  induction reqs generalizing q with
  | nil => rfl
  | cons r rs ih => simp [coordinatorRun, handle, ih]

lemma count_enqueue_le (q : QueueState) (t x : ShadowTask) :
    ((enqueue q t).1.items.count x) ≤ q.items.count x + 1 := by
  have hs : List.count x [t] ≤ 1 := by
    rw [List.count_singleton']
    split <;> omega
  unfold enqueue
  by_cases hc : q.closed
  · simp [hc]
  · by_cases hl : q.items.length < q.capacity
    · simp [hc, hl, List.count_append]
      omega
    · cases hp : q.policy
      · simp [hc, hl, hp]
      · simp only [hc, hl, hp, if_false, Bool.false_eq_true, if_neg,
          List.count_append]
        have ht : q.items.tail.count x ≤ q.items.count x :=
          (List.tail_sublist q.items).count_le x
        omega

/-- C1: for every accepted request, the response returned to the caller is
exactly what the Primary Forwarder would produce for that request in
isolation, and running the engine with a different shadow environment
(shadow target up, down, or failing) or a different initial queue yields
the identical sequence of primary responses. -/
theorem primary_noninterference (origin : Request → UpstreamBehavior)
    (env1 env2 : ShadowEnv) (target : String) (timeout maxAttempts : Nat)
    (q1 q2 : QueueState) (reqs : List Request) :
    (engineRun origin env1 target timeout maxAttempts q1 reqs).1
      = reqs.map (handleResponse origin)
    ∧ (engineRun origin env1 target timeout maxAttempts q1 reqs).1
      = (engineRun origin env2 target timeout maxAttempts q2 reqs).1 := by
  refine ⟨?_, ?_⟩ <;> simp [engineRun, coordinatorRun_responses]

/-- C2: every call to handle triggers the primary forward exactly once and
the shadow enqueue attempt exactly once, and the queue gains at most one
occurrence of any task, so the shadow target can receive at most one clone
per accepted inbound call. -/
theorem handle_exactly_once (origin : Request → UpstreamBehavior)
    (target : String) (timeout : Nat) (q : QueueState) (req : Request) :
    (handle origin target timeout q req).events.countP Event.isPrimary = 1
    ∧ (handle origin target timeout q req).events.countP
        Event.isEnqueueAttempt = 1
    ∧ ∀ t : ShadowTask,
        (handle origin target timeout q req).queue.items.count t
          ≤ q.items.count t + 1 := by
  refine ⟨?_, ?_, ?_⟩
  · simp [handle, List.countP, List.countP.go, Event.isPrimary]
  · simp [handle, List.countP, List.countP.go, Event.isEnqueueAttempt]
  · intro t
    simpa [handle] using count_enqueue_le q (clone target timeout req) t

/-- C7: forward passes the origin response through unmodified and fails
with UpstreamError exactly on connection failure, timeout, or malformed
upstream response; the coordinator translates that error into a
gateway-style error response; and the response handed to the caller never
depends on the shadow path, so shadow errors are never surfaced. -/
theorem forward_error_contract (origin : Request → UpstreamBehavior) :
    (∀ req r, forward origin req = .ok r ↔ origin req = .respond r)
    ∧ (∀ req, (∃ e, forward origin req = .error e)
        ↔ (origin req = .connectionFailure ∨ origin req = .timeout
            ∨ origin req = .malformed))
    ∧ (∀ req e, forward origin req = .error e
        → handleResponse origin req = gatewayError e)
    ∧ (∀ target timeout q1 q2 req,
        (handle origin target timeout q1 req).response
          = (handle origin target timeout q2 req).response) := by
  refine ⟨?_, ?_, ?_, ?_⟩
  · intro req r
    cases h : origin req <;> simp [forward, h]
  · intro req
    cases h : origin req <;> simp [forward, h]
  · intro req e h
    unfold handleResponse
    rw [h]
  · intro target timeout q1 q2 req
    simp [handle]

/-- C10: a ShadowServer is fully constructible from a single positional
target-URL string with no other configuration, the sample builds exactly
that object for https slash slash www.google.com, and start_server yields
a suspended coroutine that produces its result only when an event loop
drives it, as src/sample.py does with asyncio.run. -/
theorem shadowServer_construction :
    (∀ url : String, (ShadowServer.ofUrl url).target_url = url)
    ∧ server = ShadowServer.ofUrl "https://www.google.com/"
    ∧ (∀ s : ShadowServer, ∃ k, s.start_server = Async.suspend k)
    ∧ sampleMain = (server.start_server).run := by
  refine ⟨fun url => rfl, rfl, fun s => ⟨_, rfl⟩, rfl⟩

/-- C8: when the queue is open and not full, handling a request appends
exactly one ShadowTask to the queue, and that clone carries the same
method, path, headers (order and duplicates preserved) and body as the
original request. -/
theorem clone_reaches_pool (origin : Request → UpstreamBehavior)
    (target : String) (timeout : Nat) (q : QueueState) (req : Request)
    (hfull : q.items.length < q.capacity) (hclosed : q.closed = false) :
    (handle origin target timeout q req).queue.items
      = q.items ++ [clone target timeout req]
    ∧ (clone target timeout req).method = req.method
    ∧ (clone target timeout req).path = req.path
    ∧ (clone target timeout req).headers = req.headers
    ∧ (clone target timeout req).body = req.body := by
  refine ⟨?_, rfl, rfl, rfl, rfl⟩
  simp [handle, enqueue, hclosed, hfull]

/-- Witness for C8 at a fresh queue of capacity 2 and the sample GET /ping
request. -/
theorem clone_reaches_pool_witness :
    (QueueState.mk0 2 .rejectNew).items.length
        < (QueueState.mk0 2 .rejectNew).capacity
    ∧ (QueueState.mk0 2 .rejectNew).closed = false
    ∧ ((handle sampleOrigin "https://www.google.com/" 30
          (QueueState.mk0 2 .rejectNew) sampleRequest).queue.items
        = (QueueState.mk0 2 .rejectNew).items
            ++ [clone "https://www.google.com/" 30 sampleRequest]
      ∧ (clone "https://www.google.com/" 30 sampleRequest).method
          = sampleRequest.method
      ∧ (clone "https://www.google.com/" 30 sampleRequest).path
          = sampleRequest.path
      ∧ (clone "https://www.google.com/" 30 sampleRequest).headers
          = sampleRequest.headers
      ∧ (clone "https://www.google.com/" 30 sampleRequest).body
          = sampleRequest.body) :=
  ⟨by decide, rfl,
    clone_reaches_pool sampleOrigin "https://www.google.com/" 30
      (QueueState.mk0 2 .rejectNew) sampleRequest (by decide) rfl⟩

lemma enqueueAll_rejectNew (ts : List ShadowTask) (q : QueueState)
    (hp : q.policy = .rejectNew) (hc : q.closed = false) :
    (enqueueAll q ts).2 = min ts.length (q.capacity - q.items.length)
    ∧ (enqueueAll q ts).1.dropped
        = q.dropped + (ts.length - (q.capacity - q.items.length)) := by
  induction ts generalizing q with
  | nil => simp [enqueueAll]
  | cons t ts ih =>
    by_cases hl : q.items.length < q.capacity
    · have step : enqueue q t = ({ q with items := q.items ++ [t] }, true) := by
        simp [enqueue, hc, hl]
      obtain ⟨ih1, ih2⟩ := ih { q with items := q.items ++ [t] } hp hc
      simp only [List.length_append, List.length_singleton] at ih1 ih2
      simp only [enqueueAll, step, List.length_cons, if_pos, ih1, ih2]
      constructor <;> omega
    · have step : enqueue q t = ({ q with dropped := q.dropped + 1 }, false) := by
        simp [enqueue, hc, hl, hp]
      obtain ⟨ih1, ih2⟩ := ih { q with dropped := q.dropped + 1 } hp hc
      simp only at ih1 ih2
      simp only [enqueueAll, step, List.length_cons, if_neg, ih1, ih2,
        Bool.false_eq_true, not_false_eq_true]
      constructor <;> omega

lemma enqueueAll_dropOldest (ts : List ShadowTask) (q : QueueState)
    (hp : q.policy = .dropOldest) (hc : q.closed = false)
    (hcap : 0 < q.capacity) (hlen : q.items.length ≤ q.capacity) :
    (enqueueAll q ts).1.items
      = (q.items ++ ts).drop (q.items.length + ts.length - q.capacity) := by
  induction ts generalizing q with
  | nil =>
    have h0 : q.items.length - q.capacity = 0 := by omega
    simp [enqueueAll, h0]
  | cons t ts ih =>
    by_cases hl : q.items.length < q.capacity
    · have step : enqueue q t = ({ q with items := q.items ++ [t] }, true) := by
        simp [enqueue, hc, hl]
      have h1 : (q.items ++ [t]).length = q.items.length + 1 := by simp
      have hlen' : (q.items ++ [t]).length ≤ q.capacity := by omega
      have ih' := ih { q with items := q.items ++ [t] } hp hc hcap hlen'
      simp only at ih'
      have hidx : (q.items ++ [t]).length + ts.length - q.capacity
          = q.items.length + (ts.length + 1) - q.capacity := by omega
      rw [hidx] at ih'
      have harr : (q.items ++ [t]) ++ ts = q.items ++ t :: ts := by
        rw [List.append_assoc, List.singleton_append]
      rw [harr] at ih'
      simp only [enqueueAll, step, List.length_cons]
      exact ih'
    · have hlencap : q.items.length = q.capacity :=
        Nat.le_antisymm hlen (Nat.not_lt.mp hl)
      cases hq : q.items with
      | nil =>
        have h0 : q.items.length = 0 := by rw [hq]; rfl
        omega
      | cons a as =>
        have hlen0 : q.items.length = as.length + 1 := by rw [hq]; simp
        have step : enqueue q t
            = ({ q with items := as ++ [t],
                        evicted := q.evicted ++ [a] }, true) := by
          have hcl : ¬ (a :: as).length < q.capacity := by
            simp only [List.length_cons]; omega
          simp [enqueue, hc, hcl, hp, hq]
          omega
        have h1 : (as ++ [t]).length = as.length + 1 := by simp
        have hlen' : (as ++ [t]).length ≤ q.capacity := by omega
        have ih' := ih { q with items := as ++ [t],
                                evicted := q.evicted ++ [a] } hp hc hcap hlen'
        simp only at ih'
        have hidx : (as ++ [t]).length + ts.length - q.capacity = ts.length := by
          omega
        rw [hidx] at ih'
        have harr : (as ++ [t]) ++ ts = as ++ t :: ts := by
          rw [List.append_assoc, List.singleton_append]
        rw [harr] at ih'
        simp only [enqueueAll, step, List.length_cons]
        rw [ih']
        have hidx2 : as.length + 1 + (ts.length + 1) - q.capacity
            = ts.length + 1 := by omega
        rw [hidx2, List.cons_append, List.drop_succ_cons]

/-- C3: enqueue on a full open queue under reject-new returns false
immediately, discards the task and counts it; under drop-oldest it evicts
the head before inserting.  Consequently, for N greater than C enqueues
into a fresh queue of capacity C, reject-new admits exactly C and records
N minus C as dropped, while drop-oldest leaves the queue holding exactly
the C most recent tasks. -/
theorem queue_overflow_policy (C N : Nat) (ts : List ShadowTask)
    (hC : 0 < C) (hN : ts.length = N) (hNC : C < N) :
    (∀ (q : QueueState) (t : ShadowTask),
        q.policy = .rejectNew → q.closed = false
        → q.items.length = q.capacity
        → (enqueue q t).2 = false ∧ (enqueue q t).1.items = q.items
          ∧ (enqueue q t).1.dropped = q.dropped + 1)
    ∧ (∀ (q : QueueState) (t : ShadowTask),
        q.policy = .dropOldest → q.closed = false
        → q.items.length = q.capacity → 0 < q.capacity
        → (enqueue q t).2 = true
          ∧ (enqueue q t).1.items = q.items.tail ++ [t])
    ∧ (enqueueAll (QueueState.mk0 C .rejectNew) ts).2 = C
    ∧ (enqueueAll (QueueState.mk0 C .rejectNew) ts).1.dropped = N - C
    ∧ (enqueueAll (QueueState.mk0 C .dropOldest) ts).1.items
        = ts.drop (N - C) := by
  refine ⟨?_, ?_, ?_, ?_, ?_⟩
  · intro q t hp hc hfull
    have hnl : ¬ q.items.length < q.capacity := by omega
    refine ⟨?_, ?_, ?_⟩ <;> simp [enqueue, hc, hnl, hp]
  · intro q t hp hc hfull hcap
    have hnl : ¬ q.items.length < q.capacity := by omega
    refine ⟨?_, ?_⟩ <;> simp [enqueue, hc, hnl, hp]
  · have h := (enqueueAll_rejectNew ts (QueueState.mk0 C .rejectNew)
      rfl rfl).1
    simp only [QueueState.mk0, List.length_nil, Nat.sub_zero] at h
    simp only [QueueState.mk0]
    rw [h, hN]
    exact min_eq_right (Nat.le_of_lt hNC)
  · have h := (enqueueAll_rejectNew ts (QueueState.mk0 C .rejectNew)
      rfl rfl).2
    simp only [QueueState.mk0, List.length_nil, Nat.sub_zero] at h
    simp only [QueueState.mk0]
    rw [h, hN]
    omega
  · have h := enqueueAll_dropOldest ts (QueueState.mk0 C .dropOldest)
      rfl rfl hC (by simp [QueueState.mk0])
    simp only [QueueState.mk0, List.length_nil, List.nil_append,
      Nat.zero_add] at h
    simp only [QueueState.mk0]
    rw [h, hN]

/-- Witness for C3 at capacity 1 and the two sample tasks. -/
theorem queue_overflow_policy_witness :
    0 < 1 ∧ ([sampleTask1, sampleTask2] : List ShadowTask).length = 2 ∧ 1 < 2
    ∧ ((∀ (q : QueueState) (t : ShadowTask),
          q.policy = .rejectNew → q.closed = false
          → q.items.length = q.capacity
          → (enqueue q t).2 = false ∧ (enqueue q t).1.items = q.items
            ∧ (enqueue q t).1.dropped = q.dropped + 1)
      ∧ (∀ (q : QueueState) (t : ShadowTask),
          q.policy = .dropOldest → q.closed = false
          → q.items.length = q.capacity → 0 < q.capacity
          → (enqueue q t).2 = true
            ∧ (enqueue q t).1.items = q.items.tail ++ [t])
      ∧ (enqueueAll (QueueState.mk0 1 .rejectNew)
          [sampleTask1, sampleTask2]).2 = 1
      ∧ (enqueueAll (QueueState.mk0 1 .rejectNew)
          [sampleTask1, sampleTask2]).1.dropped = 2 - 1
      ∧ (enqueueAll (QueueState.mk0 1 .dropOldest)
          [sampleTask1, sampleTask2]).1.items
          = ([sampleTask1, sampleTask2] : List ShadowTask).drop (2 - 1)) :=
  ⟨Nat.one_pos, rfl, Nat.one_lt_two,
    queue_overflow_policy 1 2 [sampleTask1, sampleTask2]
      Nat.one_pos rfl Nat.one_lt_two⟩

lemma enqueue_capacity (q : QueueState) (t : ShadowTask) :
    (enqueue q t).1.capacity = q.capacity := by
  by_cases hc : q.closed
  · simp [enqueue, hc]
  · by_cases hl : q.items.length < q.capacity
    · simp [enqueue, hc, hl]
    · cases hp : q.policy <;> simp [enqueue, hc, hl, hp]

lemma enqueue_length_le (q : QueueState) (t : ShadowTask)
    (hcap : 0 < q.capacity) (h : q.items.length ≤ q.capacity) :
    (enqueue q t).1.items.length ≤ q.capacity := by
  by_cases hc : q.closed
  · simpa [enqueue, hc] using h
  · by_cases hl : q.items.length < q.capacity
    · simp [enqueue, hc, hl]
      omega
    · have hge : q.capacity ≤ q.items.length := Nat.not_lt.mp hl
      cases hp : q.policy
      · simpa [enqueue, hc, hl, hp] using h
      · simp [enqueue, hc, hl, hp, List.length_append, List.length_tail]
        omega

lemma applyOp_capacity (s : RunLog) (op : QueueOp) :
    (s.applyOp op).queue.capacity = s.queue.capacity := by
  cases op with
  | enq t => simpa [RunLog.applyOp] using enqueue_capacity s.queue t
  | deq =>
    cases hq : s.queue.items with
    | nil =>
      by_cases hc : s.queue.closed <;> simp [RunLog.applyOp, dequeue, hq, hc]
    | cons a as => simp [RunLog.applyOp, dequeue, hq]

lemma applyOp_length (s : RunLog) (op : QueueOp)
    (hcap : 0 < s.queue.capacity)
    (h : s.queue.items.length ≤ s.queue.capacity) :
    (s.applyOp op).queue.items.length ≤ s.queue.capacity := by
  cases op with
  | enq t => simpa [RunLog.applyOp] using enqueue_length_le s.queue t hcap h
  | deq =>
    cases hq : s.queue.items with
    | nil =>
      by_cases hc : s.queue.closed <;>
        simp [RunLog.applyOp, dequeue, hq, hc]
    | cons a as =>
      simp [RunLog.applyOp, dequeue, hq]
      rw [hq] at h
      simp only [List.length_cons] at h
      omega

/-- Conservation of tasks: every task accepted by enqueue is, with the
right multiplicity, either already dequeued, evicted under drop-oldest,
or still in the queue. -/
def consInv (s : RunLog) : Prop :=
  ∀ x : ShadowTask,
    s.accepted.count x
      = s.dequeued.count x + s.queue.evicted.count x + s.queue.items.count x

lemma applyOp_consInv (s : RunLog) (op : QueueOp) (h : consInv s) :
    consInv (s.applyOp op) := by
  intro x
  have hx := h x
  cases op with
  | enq t =>
    by_cases hc : s.queue.closed
    · simpa [RunLog.applyOp, enqueue, hc] using hx
    · by_cases hl : s.queue.items.length < s.queue.capacity
      · simp [RunLog.applyOp, enqueue, hc, hl, List.count_append]
        omega
      · cases hp : s.queue.policy
        · simpa [RunLog.applyOp, enqueue, hc, hl, hp] using hx
        · simp [RunLog.applyOp, enqueue, hc, hl, hp, List.count_append]
          have hsplit : s.queue.items.count x
              = (s.queue.items.take 1).count x
                + s.queue.items.tail.count x := by
            conv_lhs => rw [← List.take_append_drop 1 s.queue.items]
            rw [List.count_append, List.drop_one]
          omega
  | deq =>
    cases hq : s.queue.items with
    | nil =>
      rw [hq] at hx
      by_cases hc : s.queue.closed <;>
        simpa [RunLog.applyOp, dequeue, hq, hc] using hx
    | cons a as =>
      rw [hq] at hx
      simp only [List.count_cons, beq_iff_eq] at hx
      simp [RunLog.applyOp, dequeue, hq, List.count_append,
        List.count_cons, List.count_nil, beq_iff_eq]
      omega

lemma runOps_length (ops : List QueueOp) (s : RunLog)
    (hcap : 0 < s.queue.capacity)
    (h : s.queue.items.length ≤ s.queue.capacity) :
    (s.runOps ops).queue.items.length ≤ s.queue.capacity := by
  induction ops generalizing s with
  | nil => simpa [RunLog.runOps] using h
  | cons op ops ih =>
    have hc := applyOp_capacity s op
    have h1 := applyOp_length s op hcap h
    have := ih (s.applyOp op) (by rw [hc]; exact hcap) (by rw [hc]; exact h1)
    rw [hc] at this
    simpa [RunLog.runOps] using this

lemma runOps_consInv (ops : List QueueOp) (s : RunLog) (h : consInv s) :
    consInv (s.runOps ops) := by
  induction ops generalizing s with
  | nil => simpa [RunLog.runOps] using h
  | cons op ops ih =>
    simpa [RunLog.runOps] using ih (s.applyOp op) (applyOp_consInv s op h)

/-- C4: starting from a fresh queue, under any sequence of enqueue and
dequeue operations the queue length never exceeds the configured
capacity, and no accepted task is lost or duplicated: the accepted tasks
are exactly the dequeued ones, the drop-oldest evictions, and the tasks
still queued, with multiplicity. -/
theorem queue_length_and_conservation (cap : Nat) (pol : OverflowPolicy)
    (ops : List QueueOp) (hcap : 0 < cap) :
    ((initLog cap pol).runOps ops).queue.items.length ≤ cap
    ∧ ∀ x : ShadowTask,
        ((initLog cap pol).runOps ops).accepted.count x
          = ((initLog cap pol).runOps ops).dequeued.count x
            + ((initLog cap pol).runOps ops).queue.evicted.count x
            + ((initLog cap pol).runOps ops).queue.items.count x := by
  constructor
  · simpa [initLog, QueueState.mk0] using
      runOps_length ops (initLog cap pol)
        (by simp [initLog, QueueState.mk0]; exact hcap)
        (by simp [initLog, QueueState.mk0])
  · exact runOps_consInv ops (initLog cap pol)
      (by intro x; simp [initLog, QueueState.mk0])

/-- Witness for C4 at capacity 1 with two enqueues and a dequeue. -/
theorem queue_length_and_conservation_witness :
    0 < 1
    ∧ (((initLog 1 .rejectNew).runOps
          [.enq sampleTask1, .enq sampleTask2, .deq]).queue.items.length ≤ 1
      ∧ ∀ x : ShadowTask,
          ((initLog 1 .rejectNew).runOps
              [.enq sampleTask1, .enq sampleTask2, .deq]).accepted.count x
            = ((initLog 1 .rejectNew).runOps
                [.enq sampleTask1, .enq sampleTask2, .deq]).dequeued.count x
              + ((initLog 1 .rejectNew).runOps
                  [.enq sampleTask1, .enq sampleTask2, .deq]).queue.evicted.count x
              + ((initLog 1 .rejectNew).runOps
                  [.enq sampleTask1, .enq sampleTask2, .deq]).queue.items.count x) :=
  ⟨Nat.one_pos,
    queue_length_and_conservation 1 .rejectNew
      [.enq sampleTask1, .enq sampleTask2, .deq] Nat.one_pos⟩

lemma sysStep_workers_length (origin : Request → UpstreamBehavior)
    (env : ShadowEnv) (target : String) (timeout maxAttempts : Nat)
    (s s' : SysState)
    (h : SysStep origin env target timeout maxAttempts s s') :
    s'.workers.length = s.workers.length := by
  cases h with
  | accept req => simp [acceptState]
  | pickup i t q hw hq => simp [pickupState]
  | finish i t hw => simp [finishState]

/-- A starting engine state with one idle worker and an empty queue, used
to instantiate universally quantified statements. -/
def sysInit : SysState :=
  { queue := QueueState.mk0 4 .rejectNew, workers := [.idle],
    responses := [], outcomes := [] }

/-- C5: in every state reachable by engine steps from a state with W
worker slots, the number of shadow deliveries in flight concurrently is
at most W, whatever the burst of accepted requests. -/
theorem worker_concurrency_bound (origin : Request → UpstreamBehavior)
    (env : ShadowEnv) (target : String) (timeout maxAttempts W : Nat)
    (s0 s : SysState) (hW : s0.workers.length = W)
    (hreach : Relation.ReflTransGen
      (SysStep origin env target timeout maxAttempts) s0 s) :
    inFlight s.workers ≤ W := by
  have hlen : s.workers.length = W := by
    induction hreach with
    | refl => exact hW
    | tail h1 h2 ih =>
      rw [sysStep_workers_length origin env target timeout maxAttempts _ _ h2]
      exact ih
  calc inFlight s.workers ≤ s.workers.length := List.countP_le_length _
    _ = W := hlen

/-- Witness for C5: one accept step from the initial one-worker state. -/
theorem worker_concurrency_bound_witness :
    sysInit.workers.length = 1
    ∧ inFlight (acceptState sampleOrigin "https://www.google.com/" 30
        sysInit sampleRequest).workers ≤ 1 :=
  ⟨rfl,
    worker_concurrency_bound sampleOrigin envDown "https://www.google.com/"
      30 1 1 sysInit
      (acceptState sampleOrigin "https://www.google.com/" 30 sysInit
        sampleRequest)
      rfl
      (Relation.ReflTransGen.single
        (SysStep.accept sysInit sampleRequest))⟩

/-- C6: every Lifecycle Controller step is one of the four allowed
transitions: Stopped to Starting, which spawns the W workers; Starting to
Running; Running to Draining, which closes the Shadow Queue so enqueue
calls fail fast; and Draining to Stopped once in-flight attempts have
finished or been cancelled.  No other transition is possible. -/
theorem lifecycle_transitions (W : Nat) (c c' : Controller)
    (h : LifecycleStep W c c') :
    (c.phase = .stopped ∧ c'.phase = .starting ∧ c'.workers.length = W)
    ∨ (c.phase = .starting ∧ c'.phase = .running)
    ∨ (c.phase = .running ∧ c'.phase = .draining ∧ c'.queue.closed = true
        ∧ ∀ t : ShadowTask, (enqueue c'.queue t).2 = false)
    ∨ (c.phase = .draining ∧ c'.phase = .stopped) := by
  cases h with
  | start h => exact Or.inl ⟨h, rfl, by simp⟩
  | run h => exact Or.inr (Or.inl ⟨h, rfl⟩)
  | stop h =>
    refine Or.inr (Or.inr (Or.inl ⟨h, rfl, rfl, fun t => ?_⟩))
    simp [enqueue]
  | finishDrain h => exact Or.inr (Or.inr (Or.inr ⟨h, rfl⟩))

/-- A stopped controller used to instantiate universally quantified
statements. -/
def ctrl0 : Controller :=
  { phase := .stopped, queue := QueueState.mk0 1 .rejectNew, workers := [] }

/-- The controller after the start transition from ctrl0 with two
workers. -/
def ctrl1 : Controller :=
  { ctrl0 with phase := .starting, workers := List.replicate 2 .idle }

/-- Witness for C6: the start transition from the stopped controller with
two workers. -/
theorem lifecycle_transitions_witness :
    LifecycleStep 2 ctrl0 ctrl1
    ∧ ((ctrl0.phase = .stopped ∧ ctrl1.phase = .starting
          ∧ ctrl1.workers.length = 2)
      ∨ (ctrl0.phase = .starting ∧ ctrl1.phase = .running)
      ∨ (ctrl0.phase = .running ∧ ctrl1.phase = .draining
          ∧ ctrl1.queue.closed = true
          ∧ ∀ t : ShadowTask, (enqueue ctrl1.queue t).2 = false)
      ∨ (ctrl0.phase = .draining ∧ ctrl1.phase = .stopped)) :=
  ⟨LifecycleStep.start ctrl0 rfl,
    lifecycle_transitions 2 ctrl0 ctrl1 (LifecycleStep.start ctrl0 rfl)⟩

lemma tryDeliver_attempts_le (env : ShadowEnv) (t : ShadowTask)
    (made fuel : Nat) :
    (tryDeliver env t made fuel).2 ≤ made + fuel := by
  induction fuel generalizing made with
  | zero => simp [tryDeliver]
  | succ n ih =>
    cases h : env.attempt t made with
    | delivered => simp [tryDeliver, h]
    | failed =>
      by_cases hn : n = 0
      · simp [tryDeliver, h, hn]
      · have := ih (made + 1)
        simp only [tryDeliver, h, if_neg hn]
        omega
    | timedOut =>
      by_cases hn : n = 0
      · simp [tryDeliver, h, hn]
      · have := ih (made + 1)
        simp only [tryDeliver, h, if_neg hn]
        omega

lemma tryDeliver_attempts_ge (env : ShadowEnv) (t : ShadowTask)
    (made fuel : Nat) (hf : 0 < fuel) :
    made + 1 ≤ (tryDeliver env t made fuel).2 := by
  induction fuel generalizing made with
  | zero => omega
  | succ n ih =>
    cases h : env.attempt t made with
    | delivered => simp [tryDeliver, h]
    | failed =>
      by_cases hn : n = 0
      · simp [tryDeliver, h, hn]
      · have := ih (made + 1) (Nat.pos_of_ne_zero hn)
        simp only [tryDeliver, h, if_neg hn]
        omega
    | timedOut =>
      by_cases hn : n = 0
      · simp [tryDeliver, h, hn]
      · have := ih (made + 1) (Nat.pos_of_ne_zero hn)
        simp only [tryDeliver, h, if_neg hn]
        omega

/-- C9: a worker attempts each task at most maxAttempts times and at
least once before abandoning it, the default maxAttempts is 1 (no retry),
and a worker finishing a task, delivered or failed, changes neither the
responses already returned on the primary path, nor the queue the
coordinator writes to, nor any other worker slot. -/
theorem retry_bound_and_isolation (env : ShadowEnv) (t : ShadowTask)
    (maxAttempts : Nat) (hA : 1 ≤ maxAttempts) :
    (workerDeliver env t maxAttempts).2 ≤ maxAttempts
    ∧ 1 ≤ (workerDeliver env t maxAttempts).2
    ∧ defaultMaxAttempts = 1
    ∧ (workerDeliver env t defaultMaxAttempts).2 ≤ 1
    ∧ ∀ (maxA2 : Nat) (s : SysState) (i : Nat),
        (finishState env maxA2 s i t).responses = s.responses
        ∧ (finishState env maxA2 s i t).queue = s.queue
        ∧ ∀ j, j ≠ i →
            (finishState env maxA2 s i t).workers[j]? = s.workers[j]? := by
  refine ⟨?_, ?_, rfl, ?_, ?_⟩
  · simpa [workerDeliver] using tryDeliver_attempts_le env t 0 maxAttempts
  · simpa [workerDeliver] using tryDeliver_attempts_ge env t 0 maxAttempts hA
  · simpa [workerDeliver, defaultMaxAttempts] using
      tryDeliver_attempts_le env t 0 1
  · intro maxA2 s i
    refine ⟨rfl, rfl, fun j hj => ?_⟩
    simp only [finishState]
    exact List.getElem?_set_ne (by omega)

/-- Witness for C9 with the failing shadow environment and one attempt. -/
theorem retry_bound_and_isolation_witness :
    1 ≤ 1
    ∧ ((workerDeliver envDown sampleTask1 1).2 ≤ 1
      ∧ 1 ≤ (workerDeliver envDown sampleTask1 1).2
      ∧ defaultMaxAttempts = 1
      ∧ (workerDeliver envDown sampleTask1 defaultMaxAttempts).2 ≤ 1
      ∧ ∀ (maxA2 : Nat) (s : SysState) (i : Nat),
          (finishState envDown maxA2 s i sampleTask1).responses = s.responses
          ∧ (finishState envDown maxA2 s i sampleTask1).queue = s.queue
          ∧ ∀ j, j ≠ i →
              (finishState envDown maxA2 s i sampleTask1).workers[j]?
                = s.workers[j]?) :=
  ⟨Nat.le_refl 1,
    retry_bound_and_isolation envDown sampleTask1 1 (Nat.le_refl 1)⟩

end Shadowserver
